import Mathlib

/-!
Shallow embedding of the smartmoney-alerts virality-scoring core:
the anomaly analyzer (src/core/analyzer.py), the insider scorer
(src/core/scorer.py), the congressional analyzer/scorer
(src/scrapers/congress.py) and the 13F fund scorer
(src/scrapers/hedge_funds.py).

Conventions of the embedding:
* Python dicts with optional keys become structures whose optional
  fields are `Option`-typed; `dict.get(k, d)` becomes `Option.getD`.
* Monetary values and share counts are rationals (Python floats/ints);
  the comparisons performed by the code are order comparisons, which
  agree with exact rational arithmetic on all program values.
* Dates are day numbers (integers); `datetime.now()` becomes an explicit
  `now : Int` parameter; a missing or unparseable `filing_date` is `none`.
* The two injected lookups (`get_recent_trades_for_ticker`,
  `get_insider_history` with and without a ticker) become explicit
  parameters; a lookup that raised is `none`, a lookup that returned
  rows is `some rows`.
* Python string truthiness (`if ticker:`) is non-emptiness of the
  `Option String` payload.
-/

/-! Pin kernel-computable arithmetic on `ℚ`, so that concrete runs of
the embedded functions can be checked by `decide`/`rfl`. Each operation
is the standard exact rational operation, written as cross-multiplication
followed by `mkRat` normalization (the library's own `Rat.add`, `Rat.sub`
and `Rat.inv` are marked irreducible, which blocks `decide`). -/

instance (priority := 10000) : Add Rat :=
  ⟨fun a b => mkRat (a.num * b.den + b.num * a.den) (a.den * b.den)⟩
instance (priority := 10000) : Sub Rat :=
  ⟨fun a b => mkRat (a.num * b.den - b.num * a.den) (a.den * b.den)⟩
instance (priority := 10000) : Neg Rat := ⟨Rat.neg⟩
instance (priority := 10000) : Mul Rat :=
  ⟨fun a b => mkRat (a.num * b.num) (a.den * b.den)⟩
instance (priority := 10000) : Div Rat :=
  ⟨fun a b => mkRat (a.num * b.den * Int.sign b.num) (a.den * b.num.natAbs)⟩
instance (priority := 10000) : NatCast Rat := ⟨fun n => Rat.ofInt (Int.ofNat n)⟩

/-- Python's `needle in hay` substring test. -/
def substr (needle hay : String) : Bool :=
  decide (List.IsInfix needle.data hay.data)

/-- Python `str.upper()` (the embedded strings are ASCII). -/
def upper (s : String) : String := String.mk (s.data.map Char.toUpper)

/-- Python `str.lower()` (the embedded strings are ASCII). -/
def lower (s : String) : String := String.mk (s.data.map Char.toLower)

/-- Python truthiness of an optional string field: present and non-empty. -/
def strTruthy (o : Option String) : Bool :=
  match o with
  | some s => !s.isEmpty
  | none => false

/-- Round a nonnegative rational to the nearest integer. -/
def ratRound (q : ℚ) : ℤ := Rat.floor (q + 1 / 2)

/-- Python `f"{q:.0f}"` formatting of a nonnegative rational (digits only). -/
def fmt0 (q : ℚ) : String :=
  toString (ratRound q)

/-- Python `f"{q:.1f}"` formatting of a nonnegative rational. -/
def fmt1 (q : ℚ) : String :=
  let n : ℤ := ratRound (q * 10)
  toString (n / 10) ++ "." ++ toString (n % 10).natAbs

/-! ## Ticker sets (src/config/tickers.py) -/

def FAANG : List String := ["META", "AAPL", "AMZN", "NFLX", "GOOGL", "GOOG"]

def MEME_STOCKS : List String :=
  ["TSLA", "GME", "AMC", "BBBY", "PLTR", "NIO", "RIVN", "LCID",
   "SOFI", "HOOD", "COIN", "MARA", "RIOT", "NVDA", "AMD"]

def MAGNIFICENT_7 : List String :=
  ["AAPL", "MSFT", "GOOGL", "GOOG", "AMZN", "NVDA", "META", "TSLA"]

def SP500 : List String :=
  ["AAPL", "MSFT", "AMZN", "NVDA", "GOOGL", "GOOG", "META", "TSLA", "BRK.B",
   "UNH", "JNJ", "JPM", "V", "PG", "XOM", "MA", "HD", "CVX", "MRK", "ABBV",
   "LLY", "PEP", "KO", "COST", "AVGO", "WMT", "MCD", "CSCO", "ACN", "TMO",
   "ABT", "DHR", "NEE", "VZ", "ADBE", "NKE", "PM", "TXN", "WFC", "CRM",
   "BMY", "UPS", "MS", "RTX", "HON", "QCOM", "UNP", "LOW", "ORCL", "IBM",
   "INTC", "SPGI", "CAT", "GE", "AMGN", "INTU", "BA", "DE", "AXP", "ISRG",
   "MDLZ", "SYK", "ADI", "REGN", "BKNG", "BLK", "GILD", "VRTX", "C", "SBUX",
   "MMC", "ADP", "TJX", "PLD", "CI", "CB", "SCHW", "LMT", "SO", "MO",
   "DUK", "EOG", "ZTS", "TMUS", "BDX", "CL", "NOC", "CSX", "ICE", "SHW",
   "CME", "ITW", "WM", "PNC", "USB", "TGT", "EQIX", "FDX", "EL", "GD",
   "ATVI", "EMR", "MU", "LRCX", "AMAT", "KLAC", "SNPS", "CDNS", "MRVL",
   "PANW", "CRWD", "DDOG", "ZS", "SNOW", "NET", "ABNB", "UBER", "LYFT"]

/-! ## Tier mappings -/

/-- src/core/scorer.py `get_tier`. -/
def get_tier (score : ℤ) : ℕ :=
  if score ≥ 70 then 1
  else if score ≥ 50 then 2
  else if score ≥ 30 then 3
  else 4

/-- The inline tier expression of src/scrapers/congress.py
`scrape_congress_trades` (line 420):
`1 if s >= 70 else 2 if s >= 50 else 3 if s >= 30 else 4`. -/
def congressTier (s : ℤ) : ℕ :=
  if s ≥ 70 then 1 else if s ≥ 50 then 2 else if s ≥ 30 then 3 else 4

/-- The inline tier expression of src/scrapers/hedge_funds.py
`scrape_hedge_fund_filings`. -/
def hedgeFundTier (s : ℤ) : ℕ :=
  if s ≥ 70 then 1 else if s ≥ 50 then 2 else if s ≥ 30 then 3 else 4

/-! ## Insider trade records -/

/-- A Form 4 insider-trade record as the analyzer and scorer see it:
a dict whose optional keys are `Option` fields. The last six fields are
the keys written (not read) by `TradeAnalyzer.analyze` and
`score_and_tier`; `company_name`, `filing_date` and `external_id` are
passthrough keys used by neither. -/
structure InsiderTrade where
  external_id : Option String := none
  company_name : Option String := none
  filing_date : Option Int := none
  ticker : Option String := none
  insider_cik : Option String := none
  insider_name : Option String := none
  insider_role : Option String := none
  officer_title : Option String := none
  total_value : Option ℚ := none
  shares : Option ℚ := none
  shares_owned_after : Option ℚ := none
  transaction_type : Option String := none
  is_ten_percent_owner : Bool := false
  is_director : Bool := false
  is_officer : Bool := false
  anomalies : Option (List String) := none
  anomaly_texts : Option (List String) := none
  is_bullish : Option Bool := none
  is_bearish : Option Bool := none
  virality_score : Option ℤ := none
  tier : Option ℕ := none
deriving Repr, DecidableEq

/-- One row returned by `get_recent_trades_for_ticker`. -/
structure RecentTrade where
  insider_cik : Option String := none
  transaction_type : Option String := none
deriving Repr, DecidableEq

/-- One row returned by `get_insider_history`. -/
structure HistTrade where
  transaction_type : Option String := none
  filing_date : Option Int := none
  total_value : Option ℚ := none
deriving Repr, DecidableEq

namespace InsiderTrade

/-- `trade.get('transaction_type', 'P')`. -/
def ttype (t : InsiderTrade) : String := t.transaction_type.getD "P"

def isPurchase (t : InsiderTrade) : Bool := t.ttype == "P"

def isSale (t : InsiderTrade) : Bool := t.ttype == "S"

/-- `role + ' ' + officer_title`, both upper-cased, as built by both the
analyzer (lines 40-49) and the scorer (lines 43-45). -/
def roleCheck (t : InsiderTrade) : String :=
  upper (t.insider_role.getD "") ++ " " ++ upper (t.officer_title.getD "")

/-- `trade.get('total_value', 0)`. -/
def value (t : InsiderTrade) : ℚ := t.total_value.getD 0

/-- The scorer's ticker normalization (scorer.py line 125):
`trade.get('ticker', '').upper() if trade.get('ticker') else ''`. -/
def tickerU (t : InsiderTrade) : String :=
  if strTruthy t.ticker then upper (t.ticker.getD "") else ""

end InsiderTrade

/-! ## Insider virality scorer (src/core/scorer.py) -/

open InsiderTrade in
/-- The role lookup table of `calculate_virality_score` (lines 47-73),
before the sale damping. -/
def role_base (t : InsiderTrade) : ℤ :=
  let rc := t.roleCheck
  if substr "CEO" rc || substr "CHIEF EXECUTIVE" rc then 20
  else if substr "FOUNDER" rc then 20
  else if substr "CFO" rc || substr "CHIEF FINANCIAL" rc then 18
  else if substr "COO" rc || substr "CHIEF OPERATING" rc then 16
  else if substr "CHAIRMAN" rc && !(substr "VICE" rc) then 16
  else if substr "CTO" rc || substr "CHIEF TECHNOLOGY" rc then 14
  else if substr "PRESIDENT" rc then 14
  else if t.is_ten_percent_owner then 12
  else if substr "VP" rc || substr "VICE PRESIDENT" rc then 8
  else if substr "GENERAL COUNSEL" rc then 8
  else if t.is_director then 6
  else if t.is_officer then 6
  else 2

open InsiderTrade in
/-- Role block of `calculate_virality_score` (lines 42-79), including the
sale damping `int(role_score * 0.6)`; on the table values 14, 16, 18, 20
Python's float product truncates to the same result as `3 * r / 5`. -/
def role_score (t : InsiderTrade) : ℤ :=
  let rs := role_base t
  if t.isSale && rs ≥ 14 then rs * 3 / 5 else rs

open InsiderTrade in
/-- Transaction-size block of `calculate_virality_score` (lines 81-122). -/
def size_score (t : InsiderTrade) : ℤ :=
  let v := t.value
  if t.isPurchase then
    if v ≥ 50000000 then 20
    else if v ≥ 25000000 then 18
    else if v ≥ 10000000 then 16
    else if v ≥ 5000000 then 14
    else if v ≥ 2000000 then 12
    else if v ≥ 1000000 then 10
    else if v ≥ 500000 then 7
    else if v ≥ 250000 then 5
    else if v ≥ 100000 then 3
    else 1
  else
    if v ≥ 100000000 then 18
    else if v ≥ 50000000 then 15
    else if v ≥ 25000000 then 12
    else if v ≥ 10000000 then 8
    else if v ≥ 5000000 then 5
    else 2

open InsiderTrade in
/-- Company-recognition block of `calculate_virality_score` (lines 124-141). -/
def company_score (t : InsiderTrade) : ℤ :=
  let tk := t.tickerU
  if MAGNIFICENT_7.contains tk then 20
  else if MEME_STOCKS.contains tk then 18
  else if FAANG.contains tk then 16
  else if SP500.contains tk then 10
  else if !tk.isEmpty then 4
  else 0

/-- Per-tag point table for purchases (scorer.py lines 152-184);
`buy_anomaly_scores.get(a, 2)`. -/
def buyAnomalyScore (a : String) : ℤ :=
  if a == "ceo_founder_buy" then 15
  else if a == "cfo_buy" then 12
  else if a == "chairman_buy" then 10
  else if a == "position_doubled" then 12
  else if a == "first_ever_purchase" then 10
  else if a == "seller_turned_buyer" then 10
  else if a == "consecutive_buying" then 10
  else if a == "cluster_buy" then 12
  else if a == "first_buy_in_years" then 10
  else if a == "first_buy_in_year" then 7
  else if a == "major_shareholder_buy" then 8
  else if a == "first_purchase" then 6
  else if a == "multiple_buyers" then 5
  else if a == "massive_buy" then 10
  else if a == "large_buy" then 7
  else if a == "significant_buy" then 5
  else if a == "million_plus_buy" then 3
  else if a == "unusually_large" then 8
  else if a == "larger_than_usual" then 4
  else if a == "major_position_increase" then 6
  else if a == "significant_position_increase" then 3
  else if a == "director_buy" then 2
  else 2

/-- Per-tag point table for sales (scorer.py lines 187-201);
`sell_anomaly_scores.get(a, 2)`. -/
def sellAnomalyScore (a : String) : ℤ :=
  if a == "ceo_large_sale" then 12
  else if a == "cfo_sale" then 10
  else if a == "complete_exit" then 12
  else if a == "cluster_sell" then 15
  else if a == "major_shareholder_sale" then 10
  else if a == "ceo_sale" then 6
  else if a == "major_reduction" then 8
  else if a == "significant_reduction" then 4
  else if a == "massive_sale" then 8
  else if a == "large_sale" then 5
  else 2

open InsiderTrade in
/-- Anomaly-points accumulation (scorer.py lines 203-209), before the
cap of 40. The `anomalies` key holds the tag list (persisted as JSON by
the analyzer; a missing or undecodable value decodes to `[]`). -/
def anomaly_points (t : InsiderTrade) : ℤ :=
  (t.anomalies.getD []).foldl
    (fun s a => s + (if t.isPurchase then buyAnomalyScore a else sellAnomalyScore a)) 0

/-- The strong-buy-signal subset (scorer.py lines 217-220). -/
def strongBuySignals : List String :=
  ["ceo_founder_buy", "cfo_buy", "cluster_buy", "position_doubled",
   "first_ever_purchase", "consecutive_buying", "massive_buy"]

/-- The sale warning-signal subset (scorer.py lines 228-230). -/
def warningSignals : List String :=
  ["complete_exit", "cluster_sell", "cfo_sale", "ceo_large_sale"]

open InsiderTrade in
/-- Multi-signal purchase bonus (scorer.py lines 216-224). -/
def buy_bonus (t : InsiderTrade) : ℤ :=
  if t.isPurchase then
    let n := (t.anomalies.getD []).countP (fun a => strongBuySignals.contains a)
    if n ≥ 3 then 10 else if n ≥ 2 then 5 else 0
  else 0

open InsiderTrade in
/-- Sale warning-cluster bonus (scorer.py lines 227-232). -/
def sell_bonus (t : InsiderTrade) : ℤ :=
  if t.isSale then
    let n := (t.anomalies.getD []).countP (fun a => warningSignals.contains a)
    if n ≥ 2 then 8 else 0
  else 0

open InsiderTrade in
/-- The missing-ticker penalty condition (scorer.py line 235):
`not ticker or ticker in ['N/A', 'NONE', 'None', '']`. -/
def noTickerCond (t : InsiderTrade) : Bool :=
  t.tickerU.isEmpty || ["N/A", "NONE", "None", ""].contains t.tickerU

open InsiderTrade in
/-- src/core/scorer.py `calculate_virality_score` (lines 27-246). -/
def calculate_virality_score (t : InsiderTrade) : ℤ :=
  let rs := role_score t
  let s := rs + size_score t + company_score t + min (anomaly_points t) 40
  let s := s + buy_bonus t + sell_bonus t
  let s := if noTickerCond t then max (s - 30) 0 else s
  let s := if t.value ≥ 1000000000 then max (s - 20) 0 else s
  let s := if MAGNIFICENT_7.contains t.tickerU && rs ≥ 14 then s + 5 else s
  min (max s 0) 100

/-- src/core/scorer.py `score_and_tier` (lines 279-287). -/
def score_and_tier (t : InsiderTrade) : InsiderTrade :=
  let score := calculate_virality_score t
  { t with virality_score := some score, tier := some (get_tier score) }

/-! ## Anomaly analyzer (src/core/analyzer.py `TradeAnalyzer.analyze`)

Each commented block of the source function becomes one definition
returning the pair (tags appended, texts appended); `analyze`
concatenates them in source order and writes the four output keys. -/

open InsiderTrade in
/-- Purchase role rule (analyzer.py lines 55-63): CEO/Founder wins over
CFO in an if/elif chain. -/
def buyRolePair (t : InsiderTrade) : List String × List String :=
  let rc := t.roleCheck
  if substr "CEO" rc || substr "FOUNDER" rc || substr "CHIEF EXECUTIVE" rc then
    (["ceo_founder_buy"], ["CEO/Founder buying = maximum conviction signal"])
  else if substr "CFO" rc || substr "CHIEF FINANCIAL" rc then
    (["cfo_buy"], ["CFO buying = knows the financials inside out"])
  else ([], [])

open InsiderTrade in
/-- Chairman rule (analyzer.py lines 66-68): an independent `if`, not an
`elif` of the role chain. -/
def chairmanPair (t : InsiderTrade) : List String × List String :=
  if substr "CHAIRMAN" t.roleCheck && !(substr "VICE" t.roleCheck) then
    (["chairman_buy"], ["Chairman buying shares"])
  else ([], [])

open InsiderTrade in
/-- 10%-owner purchase rule (analyzer.py lines 71-73), also independent. -/
def tenPctBuyPair (t : InsiderTrade) : List String × List String :=
  if t.is_ten_percent_owner then
    (["major_shareholder_buy"], ["Major shareholder (10%+ owner) adding to position"])
  else ([], [])

open InsiderTrade in
/-- Position-delta rule (analyzer.py lines 76-86). -/
def positionPair (t : InsiderTrade) : List String × List String :=
  let shares := t.shares.getD 0
  let after := t.shares_owned_after.getD 0
  if shares > 0 && after > 0 then
    let pct : ℚ := if after > shares then shares / (after - shares) * 100 else 0
    if pct ≥ 100 then
      (["position_doubled"], ["Doubled their position or more (+" ++ fmt0 pct ++ "%)"])
    else if pct ≥ 50 then
      (["major_position_increase"], ["Increased position by " ++ fmt0 pct ++ "%"])
    else if pct ≥ 25 then
      (["significant_position_increase"], [])
    else ([], [])
  else ([], [])

open InsiderTrade in
/-- First-ever-purchase rule (analyzer.py lines 89-91). -/
def firstEverPair (t : InsiderTrade) : List String × List String :=
  let shares := t.shares.getD 0
  let after := t.shares_owned_after.getD 0
  if after > 0 && after == shares then
    (["first_ever_purchase"], ["First time owning shares in this company"])
  else ([], [])

open InsiderTrade in
/-- Purchase-specific signals (analyzer.py lines 54-91). -/
def purchaseBlock (t : InsiderTrade) : List String × List String :=
  if t.isPurchase then
    let role := buyRolePair t
    let chairman := chairmanPair t
    let tenPct := tenPctBuyPair t
    let position := positionPair t
    let firstEver := firstEverPair t
    (role.1 ++ chairman.1 ++ tenPct.1 ++ position.1 ++ firstEver.1,
     role.2 ++ chairman.2 ++ tenPct.2 ++ position.2 ++ firstEver.2)
  else ([], [])

open InsiderTrade in
/-- Sale role rule (analyzer.py lines 97-108): CEO/Founder wins over CFO
in an if/elif chain; a CEO sale splits on size. -/
def sellRolePair (t : InsiderTrade) : List String × List String :=
  let rc := t.roleCheck
  if substr "CEO" rc || substr "FOUNDER" rc || substr "CHIEF EXECUTIVE" rc then
    if t.value ≥ 10000000 then
      (["ceo_large_sale"], ["CEO selling significant stake"])
    else (["ceo_sale"], [])
  else if substr "CFO" rc || substr "CHIEF FINANCIAL" rc then
    (["cfo_sale"], ["CFO reducing position - watch closely"])
  else ([], [])

open InsiderTrade in
/-- 10%-owner sale rule (analyzer.py lines 111-113). -/
def tenPctSellPair (t : InsiderTrade) : List String × List String :=
  if t.is_ten_percent_owner then
    (["major_shareholder_sale"], ["10%+ owner reducing stake"])
  else ([], [])

open InsiderTrade in
/-- Exit/reduction rule (analyzer.py lines 116-125). -/
def exitPair (t : InsiderTrade) : List String × List String :=
  let shares := t.shares.getD 0
  let after := t.shares_owned_after.getD 0
  if after == 0 && shares > 0 then
    (["complete_exit"], ["Sold entire position - complete exit"])
  else if after > 0 && shares > 0 then
    let sellPct : ℚ := shares / (after + shares) * 100
    if sellPct ≥ 75 then
      (["major_reduction"], ["Sold " ++ fmt0 sellPct ++ "% of holdings"])
    else if sellPct ≥ 50 then
      (["significant_reduction"], [])
    else ([], [])
  else ([], [])

open InsiderTrade in
/-- Sale-specific signals (analyzer.py lines 96-125). -/
def saleBlock (t : InsiderTrade) : List String × List String :=
  if t.isSale then
    let role := sellRolePair t
    let tenPct := tenPctSellPair t
    let exit := exitPair t
    (role.1 ++ tenPct.1 ++ exit.1, role.2 ++ tenPct.2 ++ exit.2)
  else ([], [])

/-- Distinct buyer CIKs among the recent trades (analyzer.py lines 135-142);
Python collects them in a `set`, so count distinct values. -/
def uniqueBuyers (ts : List RecentTrade) : ℕ :=
  ((ts.filter (fun r => r.transaction_type == some "P")).map (fun r => r.insider_cik)).dedup.length

/-- Distinct seller CIKs among the recent trades. -/
def uniqueSellers (ts : List RecentTrade) : ℕ :=
  ((ts.filter (fun r => r.transaction_type == some "S")).map (fun r => r.insider_cik)).dedup.length

open InsiderTrade in
/-- Cluster-activity block (analyzer.py lines 130-155): runs only when the
record has a truthy ticker; a lookup that raised (`none`) is swallowed. -/
def clusterBlock (t : InsiderTrade) (recent : Option (List RecentTrade)) :
    List String × List String :=
  if strTruthy t.ticker then
    match recent with
    | none => ([], [])
    | some ts =>
      let nb := uniqueBuyers ts
      let ns := uniqueSellers ts
      let buyers :=
        if t.isPurchase && nb ≥ 3 then
          (["cluster_buy"], [toString nb ++ " insiders buying in last 2 weeks"])
        else if t.isPurchase && nb ≥ 2 then
          (["multiple_buyers"], [])
        else ([], [])
      let sellers :=
        if t.isSale && ns ≥ 3 then
          (["cluster_sell"], [toString ns ++ " insiders selling - potential red flag"])
        else ([], [])
      (buyers.1 ++ sellers.1, buyers.2 ++ sellers.2)
  else ([], [])

open InsiderTrade in
/-- First-buy-recency rule of the historical block (analyzer.py lines
166-184), applied to the filtered purchase history. -/
def firstBuyPair (t : InsiderTrade) (purchases : List HistTrade) (now : Int) :
    List String × List String :=
  if t.isPurchase then
    if purchases.length ≤ 1 then
      (["first_purchase"], ["First recorded purchase at this company"])
    else
      match purchases with
      | _ :: p1 :: _ =>
        match p1.filing_date with
        | some d =>
          let days_since := now - d
          if days_since > 730 then
            let years := days_since / 365
            (["first_buy_in_years"], ["First buy in " ++ toString years ++ "+ years"])
          else if days_since > 365 then
            (["first_buy_in_year"], ["First buy in over a year"])
          else ([], [])
        | none => ([], [])
      | _ => ([], [])
  else ([], [])

open InsiderTrade in
/-- Consecutive-buying rule of the historical block (analyzer.py lines
186-200). -/
def consecutivePair (t : InsiderTrade) (purchases : List HistTrade) :
    List String × List String :=
  if t.isPurchase && purchases.length ≥ 3 then
    match (purchases.take 3).filterMap (fun p => p.filing_date) with
    | d0 :: _ :: d2 :: _ =>
      if d0 - d2 ≤ 90 then
        (["consecutive_buying"], ["3rd purchase in last 90 days - high conviction"])
      else ([], [])
    | _ => ([], [])
  else ([], [])

open InsiderTrade in
/-- Seller-turned-buyer rule of the historical block (analyzer.py lines
202-205). -/
def turnedPair (t : InsiderTrade) (purchases sales : List HistTrade) :
    List String × List String :=
  if t.isPurchase && sales.length > purchases.length then
    (["seller_turned_buyer"], ["Previously only sold, now buying"])
  else ([], [])

open InsiderTrade in
/-- Historical-analysis block (analyzer.py lines 160-208): runs only when
both `insider_cik` and `ticker` are truthy; `histAT` is the result of
`get_insider_history(insider_cik, ticker)` (`none` if it raised); `now`
is the current day number used by `datetime.now()`. -/
def histBlock (t : InsiderTrade) (histAT : Option (List HistTrade)) (now : Int) :
    List String × List String :=
  if strTruthy t.insider_cik && strTruthy t.ticker then
    match histAT with
    | none => ([], [])
    | some history =>
      let purchases := history.filter (fun h => h.transaction_type == some "P")
      let sales := history.filter (fun h => h.transaction_type == some "S")
      let firstBuy := firstBuyPair t purchases now
      let consecutive := consecutivePair t purchases
      let turned := turnedPair t purchases sales
      (firstBuy.1 ++ consecutive.1 ++ turned.1,
       firstBuy.2 ++ consecutive.2 ++ turned.2)
  else ([], [])

open InsiderTrade in
/-- Size-based signals (analyzer.py lines 213-230). -/
def sizeBlock (t : InsiderTrade) : List String × List String :=
  let v := t.value
  if t.isPurchase then
    if v ≥ 25000000 then
      (["massive_buy"], ["$" ++ fmt0 (v / 1000000) ++ "M+ purchase - huge conviction"])
    else if v ≥ 10000000 then
      (["large_buy"], ["$" ++ fmt1 (v / 1000000) ++ "M purchase"])
    else if v ≥ 5000000 then
      (["significant_buy"], ["$" ++ fmt1 (v / 1000000) ++ "M purchase"])
    else if v ≥ 1000000 then
      (["million_plus_buy"], [])
    else ([], [])
  else if t.isSale then
    if v ≥ 50000000 then
      (["massive_sale"], ["$" ++ fmt0 (v / 1000000) ++ "M+ sale"])
    else if v ≥ 10000000 then
      (["large_sale"], [])
    else ([], [])
  else ([], [])

open InsiderTrade in
/-- The threshold part of the relative-size rule (analyzer.py lines
245-253), applied to the filtered past transaction values. -/
def relSizePair (t : InsiderTrade) (past_values : List ℚ) :
    List String × List String :=
  if past_values.length > 1 then
    let tail := past_values.drop 1
    let avg : ℚ := tail.foldl (fun s v => s + v) 0 / (tail.length : ℚ)
    if avg > 0 then
      let multiple := t.value / avg
      if multiple ≥ 5 then
        (["unusually_large"], [fmt0 multiple ++ "x their average transaction"])
      else if multiple ≥ 3 then
        (["larger_than_usual"], [])
      else ([], [])
    else ([], [])
  else ([], [])

open InsiderTrade in
/-- Relative-size block (analyzer.py lines 235-255): runs when
`insider_cik` is truthy and the value positive; `histA` is the result of
`get_insider_history(insider_cik)` without a ticker (`none` if it raised).
Past values keep only rows with a truthy (nonzero) `total_value`. -/
def relBlock (t : InsiderTrade) (histA : Option (List HistTrade)) :
    List String × List String :=
  if strTruthy t.insider_cik && t.value > 0 then
    match histA with
    | none => ([], [])
    | some history =>
      let keep := fun (h : HistTrade) (ty : String) =>
        h.transaction_type == some ty && !(h.total_value.getD 0 == 0)
      let past_values :=
        if t.isPurchase then
          (history.filter (fun h => keep h "P")).map (fun h => h.total_value.getD 0)
        else
          (history.filter (fun h => keep h "S")).map (fun h => h.total_value.getD 0)
      relSizePair t past_values
  else ([], [])

open InsiderTrade in
/-- Director-specific tag (analyzer.py lines 260-262): appended only when
no stronger role tag was recorded earlier in the run. -/
def directorTag (t : InsiderTrade) (acc : List String) : List String :=
  if t.is_director && t.isPurchase &&
      !acc.contains "ceo_founder_buy" && !acc.contains "cfo_buy" then
    ["director_buy"]
  else []

/-- Buy-association test used for `is_bullish` (analyzer.py line 267):
`'buy' in a or 'purchase' in a`. -/
def buyWord (a : String) : Bool := substr "buy" a || substr "purchase" a

/-- Sell-association test used for `is_bearish` (analyzer.py line 268). -/
def sellWord (a : String) : Bool :=
  substr "sale" a || substr "sell" a || substr "exit" a || substr "reduction" a

open InsiderTrade in
/-- src/core/analyzer.py `TradeAnalyzer.analyze` (lines 29-270). -/
def analyze (t : InsiderTrade) (recent : Option (List RecentTrade))
    (histAT histA : Option (List HistTrade)) (now : Int) : InsiderTrade :=
  let pb := purchaseBlock t
  let sb := saleBlock t
  let cb := clusterBlock t recent
  let hb := histBlock t histAT now
  let zb := sizeBlock t
  let rb := relBlock t histA
  let acc := pb.1 ++ sb.1 ++ cb.1 ++ hb.1 ++ zb.1 ++ rb.1
  let anomalies := acc ++ directorTag t acc
  let texts := pb.2 ++ sb.2 ++ cb.2 ++ hb.2 ++ zb.2 ++ rb.2
  { t with
    anomalies := some anomalies
    anomaly_texts := some texts
    is_bullish := some (t.isPurchase && anomalies.any buyWord)
    is_bearish := some (t.isSale && anomalies.any sellWord) }

/-! ## Congressional trades (src/scrapers/congress.py) -/

/-- A congressional-trade record (optional dict keys as `Option` fields),
with the keys written by `CongressAnalyzer.analyze` and downstream. -/
structure CongressTrade where
  politician_name : Option String := none
  politician_party : Option String := none
  politician_chamber : Option String := none
  is_high_profile : Bool := false
  ticker : Option String := none
  transaction_type : Option String := none
  amount_high : Option ℚ := none
  days_to_disclose : Option ℤ := none
  anomalies : Option (List String) := none
  anomaly_texts : Option (List String) := none
  virality_score : Option ℤ := none
  tier : Option ℕ := none
deriving Repr, DecidableEq

namespace CongressAnalyzer

/-- src/scrapers/congress.py `CongressAnalyzer.analyze` (lines 303-346). -/
def analyze (t : CongressTrade) : CongressTrade :=
  let profile :=
    if t.is_high_profile then
      (["high_profile_politician"],
       [(match t.politician_name with | some n => n | none => "None") ++
        " is a high-profile member"])
    else ([], [])
  let ah := t.amount_high.getD 0
  let amount :=
    if ah ≥ 1000000 then
      (["million_plus_trade"], ["$" ++ fmt1 (ah / 1000000) ++ "M+ trade"])
    else if ah ≥ 500000 then
      (["large_trade"], ["$500K+ trade"])
    else ([], [])
  let days := t.days_to_disclose.getD 0
  let late :=
    if days > 45 then
      (["late_disclosure"],
       ["Disclosed " ++ toString days ++ " days after trade (45-day limit)"])
    else if days > 30 then
      (["slow_disclosure"], ["Disclosed " ++ toString days ++ " days after trade"])
    else ([], [])
  let tk := t.ticker.getD ""
  let meme :=
    if MEME_STOCKS.contains tk then
      (["meme_stock"], ["Trading meme stock $" ++ tk])
    else ([], [])
  let purch :=
    if t.transaction_type == some "purchase" then (["purchase"], ([] : List String))
    else ([], [])
  { t with
    anomalies := some (profile.1 ++ amount.1 ++ late.1 ++ meme.1 ++ purch.1)
    anomaly_texts := some (profile.2 ++ amount.2 ++ late.2 ++ meme.2 ++ purch.2) }

end CongressAnalyzer

namespace CongressScorer

/-!
src/scrapers/congress.py `CongressScorer.score` (lines 351-403) runs
`score = 0` followed by a sequence of `score += k` accumulations; each
accumulation block is one definition below and `score` is their sum.
-/

/-- Politician profile points (max 25). -/
def profile_points (t : CongressTrade) : ℤ :=
  if t.is_high_profile then 25 else 10

/-- Chamber points: senators are slightly more notable. -/
def chamber_points (t : CongressTrade) : ℤ :=
  if lower (t.politician_chamber.getD "") == "senate" then 5 else 0

/-- Transaction-size points (max 25). -/
def amount_points (t : CongressTrade) : ℤ :=
  let ah := t.amount_high.getD 0
  if ah ≥ 5000000 then 25
  else if ah ≥ 1000000 then 20
  else if ah ≥ 500000 then 15
  else if ah ≥ 250000 then 10
  else if ah ≥ 100000 then 5
  else 0

/-- Stock-recognition points (max 20). -/
def stock_points (t : CongressTrade) : ℤ :=
  let tk := t.ticker.getD ""
  if MEME_STOCKS.contains tk then 20
  else if SP500.contains tk then 12
  else if !tk.isEmpty then 5
  else 0

/-- Anomaly points. -/
def anomaly_points (t : CongressTrade) : ℤ :=
  let anoms := t.anomalies.getD []
  (if anoms.contains "late_disclosure" then (15:ℤ) else 0) +
  (if anoms.contains "million_plus_trade" then 10 else 0) +
  (if anoms.contains "purchase" then 5 else 0)

/-- Transaction-type bonus. -/
def type_bonus (t : CongressTrade) : ℤ :=
  if t.transaction_type == some "purchase" then 5 else 0

/-- src/scrapers/congress.py `CongressScorer.score` (lines 351-403). -/
def score (t : CongressTrade) : ℤ :=
  min (profile_points t + chamber_points t + amount_points t +
       stock_points t + anomaly_points t + type_bonus t) 100

end CongressScorer

/-! ## Hedge fund 13F filings (src/scrapers/hedge_funds.py) -/

/-- A 13F filing record, restricted to the keys the scorer reads plus
the written keys. -/
structure FundFiling where
  fund_name : Option String := none
  manager_name : Option String := none
  is_famous : Bool := false
  total_value : Option ℚ := none
  position_count : Option ℤ := none
  anomalies : Option (List String) := none
  anomaly_texts : Option (List String) := none
  virality_score : Option ℤ := none
  tier : Option ℕ := none
deriving Repr, DecidableEq

namespace HedgeFundScorer

/-!
src/scrapers/hedge_funds.py `HedgeFundScorer.score` (lines 364-407) runs
`score = 0` followed by `score += k` accumulations; each block is one
definition below and `score` is their sum.
-/

/-- Famous-fund points (max 35). -/
def famous_points (f : FundFiling) : ℤ :=
  if f.is_famous then 35 else 5

/-- Portfolio-size points (max 25). -/
def portfolio_points (f : FundFiling) : ℤ :=
  let tv := f.total_value.getD 0
  if tv ≥ 50000000000 then 25
  else if tv ≥ 10000000000 then 20
  else if tv ≥ 1000000000 then 15
  else if tv ≥ 100000000 then 10
  else 5

/-- Anomaly points. -/
def anomaly_points (f : FundFiling) : ℤ :=
  let anoms := f.anomalies.getD []
  (if anoms.contains "meme_stock_holding" then (15:ℤ) else 0) +
  (if anoms.contains "famous_fund" then 10 else 0)

/-- Position-count points: many positions suggest active trading. -/
def position_points (f : FundFiling) : ℤ :=
  let pc := f.position_count.getD 0
  if pc ≥ 100 then 10 else if pc ≥ 50 then 5 else 0

/-- src/scrapers/hedge_funds.py `HedgeFundScorer.score` (lines 364-407). -/
def score (f : FundFiling) : ℤ :=
  min (famous_points f + portfolio_points f + anomaly_points f +
       position_points f) 100

end HedgeFundScorer

/-! ## Tag vocabularies and auxiliary predicates

Each analyzer block can only ever emit tags from a fixed vocabulary;
the vocabularies are pairwise disjoint, which is what lets the
lookup-failure and exclusivity claims be stated per block. -/

def purchaseVocab : List String :=
  ["ceo_founder_buy", "cfo_buy", "chairman_buy", "major_shareholder_buy",
   "position_doubled", "major_position_increase",
   "significant_position_increase", "first_ever_purchase"]

def saleVocab : List String :=
  ["ceo_large_sale", "ceo_sale", "cfo_sale", "major_shareholder_sale",
   "complete_exit", "major_reduction", "significant_reduction"]

def clusterVocab : List String :=
  ["cluster_buy", "multiple_buyers", "cluster_sell"]

def histVocab : List String :=
  ["first_purchase", "first_buy_in_years", "first_buy_in_year",
   "consecutive_buying", "seller_turned_buyer"]

def sizeVocab : List String :=
  ["massive_buy", "large_buy", "significant_buy", "million_plus_buy",
   "massive_sale", "large_sale"]

def relVocab : List String := ["unusually_large", "larger_than_usual"]

open InsiderTrade in
/-- The CEO/Founder role test of the analyzer's role rules
(analyzer.py lines 56 and 98). -/
def ceoMatch (t : InsiderTrade) : Bool :=
  substr "CEO" t.roleCheck || substr "FOUNDER" t.roleCheck ||
  substr "CHIEF EXECUTIVE" t.roleCheck

open InsiderTrade in
/-- `analyze` consults `datetime.now()` exactly when this predicate holds:
the record is a purchase with truthy `insider_cik` and `ticker`, the
actor-and-ticker history lookup succeeded, it holds at least two
purchases, and the second one carries a parseable `filing_date`
(analyzer.py lines 170-184). -/
def usesNow (t : InsiderTrade) (histAT : Option (List HistTrade)) : Bool :=
  strTruthy t.insider_cik && strTruthy t.ticker && t.isPurchase &&
  (match histAT with
   | none => false
   | some history =>
     match history.filter (fun h => h.transaction_type == some "P") with
     | _ :: p1 :: _ => p1.filing_date.isSome
     | _ => false)

/-- The record with every optional key absent. -/
def emptyTrade : InsiderTrade := {}

/-! ## Concrete records used to settle the claims -/

/-- A high-profile senator's $5M purchase disclosed 50 days late, with no
resolvable ticker. -/
def congressNoTicker : CongressTrade :=
  { politician_name := some "Example Senator", is_high_profile := true,
    politician_chamber := some "Senate",
    amount_high := some 5000000, days_to_disclose := some 50,
    ticker := none, transaction_type := some "purchase" }

/-- A no-ticker insider record carrying strong buy signals, used to
exercise the amended missing-ticker guarantee. -/
def insiderNoTicker : InsiderTrade :=
  { ticker := none, insider_role := some "CEO",
    total_value := some 50000000, transaction_type := some "P",
    anomalies := some ["ceo_founder_buy", "massive_buy", "position_doubled"] }

/-- A purchase whose actor-and-ticker history holds two prior purchases,
the second filed on day 0. -/
def timeTrade : InsiderTrade :=
  { ticker := some "AAPL", insider_cik := some "1",
    transaction_type := some "P" }

/-- The history rows for `timeTrade`: two purchases, the second dated
day 0, the first with an unparseable date. -/
def timeHist : List HistTrade :=
  [{ transaction_type := some "P", filing_date := none },
   { transaction_type := some "P", filing_date := some 0 }]

/-- A record whose history lookup never runs (no `insider_cik`). -/
def noCikTrade : InsiderTrade :=
  { ticker := some "AAPL", transaction_type := some "P",
    insider_role := some "CEO" }

/-- An insider who is both CEO and (non-vice) Chairman, buying. -/
def ceoChairmanTrade : InsiderTrade :=
  { insider_role := some "CEO & CHAIRMAN", transaction_type := some "P" }

/-- A plain CEO purchase used to witness the role-exclusivity theorem. -/
def ceoTrade : InsiderTrade :=
  { insider_role := some "CEO", transaction_type := some "P" }

/-- A sale on a ticker whose 14-day window shows exactly two distinct
sellers. -/
def twoSellerTrade : InsiderTrade :=
  { ticker := some "AAPL", transaction_type := some "S" }

/-- The recent-activity rows for `twoSellerTrade`. -/
def twoSellerRecent : List RecentTrade :=
  [{ insider_cik := some "A", transaction_type := some "S" },
   { insider_cik := some "B", transaction_type := some "S" }]

/-- A purchase on a ticker whose 14-day window shows three distinct
buyers. -/
def threeBuyerTrade : InsiderTrade :=
  { ticker := some "AAPL", transaction_type := some "P" }

/-- The recent-activity rows for `threeBuyerTrade`. -/
def threeBuyerRecent : List RecentTrade :=
  [{ insider_cik := some "A", transaction_type := some "P" },
   { insider_cik := some "B", transaction_type := some "P" },
   { insider_cik := some "C", transaction_type := some "P" }]

/-- A purchase that more than doubles the position but matches no role
keyword and crosses no absolute-size threshold: its only tag is
`position_doubled`. -/
def doubledOnlyTrade : InsiderTrade :=
  { insider_role := some "EMPLOYEE", transaction_type := some "P",
    shares := some 100, shares_owned_after := some 150 }

/-! ## Claims -/

/-- C3: all three record variants map score to tier through the same
step function — score ≥ 70 gives tier 1, ≥ 50 tier 2, ≥ 30 tier 3,
otherwise tier 4 — and the mapping is antitone: a strictly larger score
never yields a larger tier number. -/
theorem claim3_theorem :
    (∀ s : ℤ, congressTier s = get_tier s ∧ hedgeFundTier s = get_tier s) ∧
    (∀ s : ℤ, (get_tier s = 1 ↔ 70 ≤ s) ∧ (get_tier s = 2 ↔ 50 ≤ s ∧ s < 70) ∧
      (get_tier s = 3 ↔ 30 ≤ s ∧ s < 50) ∧ (get_tier s = 4 ↔ s < 30)) ∧
    (∀ s₁ s₂ : ℤ, s₁ < s₂ → get_tier s₂ ≤ get_tier s₁) := by
  refine ⟨fun s => ⟨rfl, rfl⟩, fun s => ?_, fun s₁ s₂ h => ?_⟩
  · unfold get_tier
    split_ifs <;> omega
  · unfold get_tier
    split_ifs <;> omega

/-- C3 witness: the tier function evaluated at concrete scores. -/
theorem claim3_witness :
    congressTier 69 = get_tier 69 ∧ get_tier 69 ≤ get_tier 30 :=
  ⟨(claim3_theorem.1 69).1, claim3_theorem.2.2 30 69 (by decide)⟩

/-- C2: for every record — arbitrary field values, arbitrary anomaly tag
lists — each of the three scorers returns an integer score between 0 and
100. -/
theorem claim2_theorem (ti : InsiderTrade) (tc : CongressTrade) (tf : FundFiling) :
    (0 ≤ calculate_virality_score ti ∧ calculate_virality_score ti ≤ 100) ∧
    (0 ≤ CongressScorer.score tc ∧ CongressScorer.score tc ≤ 100) ∧
    (0 ≤ HedgeFundScorer.score tf ∧ HedgeFundScorer.score tf ≤ 100) := by
  refine ⟨?_, ?_, ?_⟩
  · simp only [calculate_virality_score]
    omega
  · have h1 : 0 ≤ CongressScorer.profile_points tc ∧ CongressScorer.profile_points tc ≤ 25 := by
      unfold CongressScorer.profile_points; try dsimp only
      split_ifs <;> omega
    have h2 : 0 ≤ CongressScorer.chamber_points tc ∧ CongressScorer.chamber_points tc ≤ 5 := by
      unfold CongressScorer.chamber_points; try dsimp only
      split_ifs <;> omega
    have h3 : 0 ≤ CongressScorer.amount_points tc ∧ CongressScorer.amount_points tc ≤ 25 := by
      unfold CongressScorer.amount_points; try dsimp only
      split_ifs <;> omega
    have h4 : 0 ≤ CongressScorer.stock_points tc ∧ CongressScorer.stock_points tc ≤ 20 := by
      unfold CongressScorer.stock_points; try dsimp only
      split_ifs <;> omega
    have h5 : 0 ≤ CongressScorer.anomaly_points tc ∧ CongressScorer.anomaly_points tc ≤ 30 := by
      unfold CongressScorer.anomaly_points; try dsimp only
      split_ifs <;> omega
    have h6 : 0 ≤ CongressScorer.type_bonus tc ∧ CongressScorer.type_bonus tc ≤ 5 := by
      unfold CongressScorer.type_bonus; try dsimp only
      split_ifs <;> omega
    unfold CongressScorer.score
    omega
  · have h1 : 0 ≤ HedgeFundScorer.famous_points tf ∧ HedgeFundScorer.famous_points tf ≤ 35 := by
      unfold HedgeFundScorer.famous_points; try dsimp only
      split_ifs <;> omega
    have h2 : 0 ≤ HedgeFundScorer.portfolio_points tf ∧ HedgeFundScorer.portfolio_points tf ≤ 25 := by
      unfold HedgeFundScorer.portfolio_points; try dsimp only
      split_ifs <;> omega
    have h3 : 0 ≤ HedgeFundScorer.anomaly_points tf ∧ HedgeFundScorer.anomaly_points tf ≤ 25 := by
      unfold HedgeFundScorer.anomaly_points; try dsimp only
      split_ifs <;> omega
    have h4 : 0 ≤ HedgeFundScorer.position_points tf ∧ HedgeFundScorer.position_points tf ≤ 10 := by
      unfold HedgeFundScorer.position_points; try dsimp only
      split_ifs <;> omega
    unfold HedgeFundScorer.score
    omega

/-! ## Bounds for the insider scorer components -/

set_option maxHeartbeats 1000000 in
theorem role_base_bounds (t : InsiderTrade) :
    0 ≤ role_base t ∧ role_base t ≤ 20 := by
  unfold role_base
  dsimp only
  split_ifs <;> omega

theorem role_score_bounds (t : InsiderTrade) :
    0 ≤ role_score t ∧ role_score t ≤ 20 := by
  have h := role_base_bounds t
  unfold role_score
  dsimp only
  split_ifs <;> omega

set_option maxHeartbeats 1000000 in
theorem size_score_bounds (t : InsiderTrade) :
    0 ≤ size_score t ∧ size_score t ≤ 20 := by
  unfold size_score
  dsimp only
  split_ifs <;> omega

set_option maxHeartbeats 1000000 in
theorem company_score_bounds (t : InsiderTrade) :
    0 ≤ company_score t ∧ company_score t ≤ 20 := by
  unfold company_score
  dsimp only
  split_ifs <;> omega

set_option maxHeartbeats 2000000 in
theorem buyAnomalyScore_nonneg (a : String) : 0 ≤ buyAnomalyScore a := by
  unfold buyAnomalyScore
  omega

set_option maxHeartbeats 1000000 in
theorem sellAnomalyScore_nonneg (a : String) : 0 ≤ sellAnomalyScore a := by
  unfold sellAnomalyScore
  omega

theorem foldl_add_nonneg (g : String → ℤ) (hg : ∀ a, 0 ≤ g a) :
    ∀ (l : List String) (s : ℤ), 0 ≤ s → 0 ≤ l.foldl (fun acc a => acc + g a) s
  | [], _, hs => hs
  | a :: l, s, hs =>
    foldl_add_nonneg g hg l (s + g a) (by have := hg a; omega)

theorem insider_anomaly_points_nonneg (t : InsiderTrade) :
    0 ≤ anomaly_points t := by
  unfold anomaly_points
  exact foldl_add_nonneg _
    (fun a => by
      by_cases h : t.isPurchase = true
      · simp only [h, if_true]
        exact buyAnomalyScore_nonneg a
      · simp only [Bool.not_eq_true] at h
        simp only [h, Bool.false_eq_true, if_false]
        exact sellAnomalyScore_nonneg a)
    _ 0 le_rfl

theorem buy_bonus_bounds (t : InsiderTrade) :
    0 ≤ buy_bonus t ∧ buy_bonus t ≤ 10 := by
  unfold buy_bonus
  dsimp only
  split_ifs <;> omega

theorem sell_bonus_bounds (t : InsiderTrade) :
    0 ≤ sell_bonus t ∧ sell_bonus t ≤ 8 := by
  unfold sell_bonus
  dsimp only
  split_ifs <;> omega

theorem not_purchase_and_sale (t : InsiderTrade) :
    t.isPurchase = false ∨ t.isSale = false := by
  unfold InsiderTrade.isPurchase InsiderTrade.isSale
  by_cases h : t.ttype = "P"
  · right
    simp [h]
  · left
    simp [h]

theorem buy_bonus_of_not_purchase (t : InsiderTrade) (h : t.isPurchase = false) :
    buy_bonus t = 0 := by
  unfold buy_bonus
  simp [h]

theorem sell_bonus_of_not_sale (t : InsiderTrade) (h : t.isSale = false) :
    sell_bonus t = 0 := by
  unfold sell_bonus
  simp [h]

theorem noTicker_cases (t : InsiderTrade) (h : noTickerCond t = true) :
    t.tickerU = "" ∨ t.tickerU = "N/A" ∨ t.tickerU = "NONE" ∨ t.tickerU = "None" := by
  unfold noTickerCond at h
  simp [String.isEmpty_iff] at h
  tauto

/-- C1 counterexample: the congressional scorer applies no
missing-ticker penalty at all, so a record with no resolvable ticker
(`ticker = none`) reaches tier 1 — not tier 4 — after analysis and
scoring, refuting the claim for the congressional record variant. -/
theorem claim1_counterexample :
    congressNoTicker.ticker = none ∧
    congressTier (CongressScorer.score (CongressAnalyzer.analyze congressNoTicker)) = 1 :=
  ⟨rfl, by decide⟩

/-- C1 (amended): in the insider scorer the missing-ticker penalty
(subtract 30, floor 0) caps a no-ticker record's score at 64, so such a
record never reaches tier 1; tiers 2 and 3 remain reachable, and the
congressional and fund scorers carry no such penalty. -/
theorem claim1_theorem (t : InsiderTrade) (h : noTickerCond t = true) :
    calculate_virality_score t ≤ 64 ∧ 2 ≤ get_tier (calculate_virality_score t) := by
  have htk := noTicker_cases t h
  have hcomp : company_score t ≤ 4 := by
    unfold company_score
    rcases htk with h' | h' | h' | h' <;> rw [h'] <;> decide
  have hmag : MAGNIFICENT_7.contains t.tickerU = false := by
    rcases htk with h' | h' | h' | h' <;> rw [h'] <;> decide
  have hrole := role_score_bounds t
  have hsize := size_score_bounds t
  have hanom := insider_anomaly_points_nonneg t
  have hbb := buy_bonus_bounds t
  have hsb := sell_bonus_bounds t
  have hbs : buy_bonus t + sell_bonus t ≤ 10 := by
    rcases not_purchase_and_sale t with h' | h'
    · have := buy_bonus_of_not_purchase t h'
      omega
    · have := sell_bonus_of_not_sale t h'
      omega
  have hscore : calculate_virality_score t ≤ 64 := by
    have hcomp0 := company_score_bounds t
    unfold calculate_virality_score
    dsimp only
    simp only [h, hmag, Bool.false_and, reduceIte]
    refine le_trans (min_le_left _ _) (max_le ?_ (by norm_num))
    have h3 : max (role_score t + size_score t + company_score t +
        min (anomaly_points t) 40 + buy_bonus t + sell_bonus t - 30) 0 ≤ 64 :=
      max_le (by omega) (by norm_num)
    split_ifs <;>
      first
      | exact absurd rfl (by assumption)
      | exact (by assumption : False).elim
      | exact h3
      | exact max_le (le_trans (sub_le_self _ (by norm_num)) h3) (by norm_num)
  refine ⟨hscore, ?_⟩
  unfold get_tier
  split_ifs <;> omega

/-- C1 witness: the amended theorem applied to a concrete no-ticker
insider record carrying strong buy signals. -/
theorem claim1_witness :
    noTickerCond insiderNoTicker = true ∧
    calculate_virality_score insiderNoTicker ≤ 64 ∧
    2 ≤ get_tier (calculate_virality_score insiderNoTicker) :=
  ⟨by decide, claim1_theorem insiderNoTicker (by decide)⟩

/-- C9: analysis is idempotent — re-analyzing an already-annotated
record with the same lookup results reproduces exactly the same
anomalies, texts and derived flags, because `analyze` reads none of the
keys it writes. -/
theorem claim9_theorem (t : InsiderTrade) (rec : Option (List RecentTrade))
    (hAT hA : Option (List HistTrade)) (now : Int) :
    analyze (analyze t rec hAT hA now) rec hAT hA now = analyze t rec hAT hA now := rfl

/-- C10: `analyze` changes only the keys `anomalies`, `anomaly_texts`,
`is_bullish` and `is_bearish`; `score_and_tier` changes only
`virality_score` and `tier`; every other key keeps its input value. -/
theorem claim10_theorem (t : InsiderTrade) (rec : Option (List RecentTrade))
    (hAT hA : Option (List HistTrade)) (now : Int) :
    ((analyze t rec hAT hA now).external_id = t.external_id ∧
     (analyze t rec hAT hA now).company_name = t.company_name ∧
     (analyze t rec hAT hA now).filing_date = t.filing_date ∧
     (analyze t rec hAT hA now).ticker = t.ticker ∧
     (analyze t rec hAT hA now).insider_cik = t.insider_cik ∧
     (analyze t rec hAT hA now).insider_name = t.insider_name ∧
     (analyze t rec hAT hA now).insider_role = t.insider_role ∧
     (analyze t rec hAT hA now).officer_title = t.officer_title ∧
     (analyze t rec hAT hA now).total_value = t.total_value ∧
     (analyze t rec hAT hA now).shares = t.shares ∧
     (analyze t rec hAT hA now).shares_owned_after = t.shares_owned_after ∧
     (analyze t rec hAT hA now).transaction_type = t.transaction_type ∧
     (analyze t rec hAT hA now).is_ten_percent_owner = t.is_ten_percent_owner ∧
     (analyze t rec hAT hA now).is_director = t.is_director ∧
     (analyze t rec hAT hA now).is_officer = t.is_officer ∧
     (analyze t rec hAT hA now).virality_score = t.virality_score ∧
     (analyze t rec hAT hA now).tier = t.tier) ∧
    ((score_and_tier t).external_id = t.external_id ∧
     (score_and_tier t).company_name = t.company_name ∧
     (score_and_tier t).filing_date = t.filing_date ∧
     (score_and_tier t).ticker = t.ticker ∧
     (score_and_tier t).insider_cik = t.insider_cik ∧
     (score_and_tier t).insider_name = t.insider_name ∧
     (score_and_tier t).insider_role = t.insider_role ∧
     (score_and_tier t).officer_title = t.officer_title ∧
     (score_and_tier t).total_value = t.total_value ∧
     (score_and_tier t).shares = t.shares ∧
     (score_and_tier t).shares_owned_after = t.shares_owned_after ∧
     (score_and_tier t).transaction_type = t.transaction_type ∧
     (score_and_tier t).is_ten_percent_owner = t.is_ten_percent_owner ∧
     (score_and_tier t).is_director = t.is_director ∧
     (score_and_tier t).is_officer = t.is_officer ∧
     (score_and_tier t).anomalies = t.anomalies ∧
     (score_and_tier t).anomaly_texts = t.anomaly_texts ∧
     (score_and_tier t).is_bullish = t.is_bullish ∧
     (score_and_tier t).is_bearish = t.is_bearish) :=
  ⟨⟨rfl, rfl, rfl, rfl, rfl, rfl, rfl, rfl, rfl, rfl, rfl, rfl, rfl, rfl, rfl, rfl, rfl⟩,
   ⟨rfl, rfl, rfl, rfl, rfl, rfl, rfl, rfl, rfl, rfl, rfl, rfl, rfl, rfl, rfl, rfl, rfl,
    rfl, rfl⟩⟩

/-- C8 counterexample: a purchase whose only earned tag is
`position_doubled` has `is_bullish = false` (the code's buy-association
test is a substring check for "buy"/"purchase", which `position_doubled`
fails), refuting the claim's example. -/
theorem claim8_counterexample :
    doubledOnlyTrade.transaction_type = some "P" ∧
    (analyze doubledOnlyTrade none none none 0).anomalies = some ["position_doubled"] ∧
    (analyze doubledOnlyTrade none none none 0).is_bullish = some false :=
  ⟨rfl, by decide, by decide⟩

/-- C8 (amended): `is_bullish` is true exactly when the record is a
purchase and some tag's name contains the substring "buy" or "purchase";
`is_bearish` exactly when it is a sale and some tag's name contains
"sale", "sell", "exit" or "reduction". A purchase whose only tag is
`position_doubled` is therefore not flagged bullish. -/
theorem claim8_theorem (t : InsiderTrade) (rec : Option (List RecentTrade))
    (hAT hA : Option (List HistTrade)) (now : Int) :
    (analyze t rec hAT hA now).is_bullish =
      some (t.isPurchase && ((analyze t rec hAT hA now).anomalies.getD []).any buyWord) ∧
    (analyze t rec hAT hA now).is_bearish =
      some (t.isSale && ((analyze t rec hAT hA now).anomalies.getD []).any sellWord) :=
  ⟨rfl, rfl⟩

/-- C4 counterexample: `analyze` consults the current date, so two calls
on the same record with the same lookup results, 365 and 366 days after
the second-most-recent prior purchase, return different anomaly lists
(the later call earns `first_buy_in_year`). -/
theorem claim4_counterexample :
    (analyze timeTrade none (some timeHist) none 365).anomalies = some [] ∧
    (analyze timeTrade none (some timeHist) none 366).anomalies =
      some ["first_buy_in_year"] :=
  ⟨by decide, by decide⟩

/-- C4 (amended): `analyze` is a pure function of the record, the lookup
results and the current date. The date enters only through the
first-buy-recency check: whenever that check is not reached (predicate
`usesNow` is false), the output is the same at every call time. -/
theorem claim4_theorem (t : InsiderTrade) (rec : Option (List RecentTrade))
    (hAT hA : Option (List HistTrade)) (n₁ n₂ : Int)
    (h : usesNow t hAT = false) :
    analyze t rec hAT hA n₁ = analyze t rec hAT hA n₂ := by
  have hh : histBlock t hAT n₁ = histBlock t hAT n₂ := by
    unfold histBlock
    by_cases hc : (strTruthy t.insider_cik && strTruthy t.ticker) = true
    · cases hAT with
      | none => rfl
      | some history =>
        have hfb : firstBuyPair t
              (history.filter (fun h => h.transaction_type == some "P")) n₁ =
            firstBuyPair t
              (history.filter (fun h => h.transaction_type == some "P")) n₂ := by
          unfold usesNow at h
          simp only [hc, Bool.true_and] at h
          by_cases hp : t.isPurchase = true
          · rw [hp] at h
            simp only [Bool.true_and] at h
            cases hps : history.filter (fun r => r.transaction_type == some "P") with
            | nil => simp [firstBuyPair]
            | cons p0 rest =>
              cases rest with
              | nil => simp [firstBuyPair]
              | cons p1 rest2 =>
                rw [hps] at h
                have hd : p1.filing_date = none := by
                  cases hfd : p1.filing_date with
                  | none => rfl
                  | some d => simp [hfd] at h
                simp [firstBuyPair, hd]
          · simp only [Bool.not_eq_true] at hp
            simp [firstBuyPair, hp]
        simp only [hc, if_true, reduceIte]
        rw [hfb]
    · simp only [Bool.not_eq_true] at hc
      simp [hc]
  simp only [analyze, hh]

/-- C4 witness: a record with no `insider_cik` never reaches the
recency check, so analyzing it at day 0 and day 1000 agrees. -/
theorem claim4_witness :
    usesNow noCikTrade none = false ∧
    analyze noCikTrade none none none 0 = analyze noCikTrade none none none 1000 :=
  ⟨by decide, claim4_theorem noCikTrade none none none 0 1000 (by decide)⟩

/-! ## Which tags each analyzer block can emit -/

theorem mem_buyRolePair (t : InsiderTrade) (a : String)
    (ha : a ∈ (buyRolePair t).1) : a ∈ purchaseVocab := by
  unfold buyRolePair at ha
  dsimp only at ha
  split_ifs at ha <;> simp_all [purchaseVocab] <;> tauto

theorem mem_chairmanPair (t : InsiderTrade) (a : String)
    (ha : a ∈ (chairmanPair t).1) : a ∈ purchaseVocab := by
  unfold chairmanPair at ha
  split_ifs at ha <;> simp_all [purchaseVocab] <;> tauto

theorem mem_tenPctBuyPair (t : InsiderTrade) (a : String)
    (ha : a ∈ (tenPctBuyPair t).1) : a ∈ purchaseVocab := by
  unfold tenPctBuyPair at ha
  split_ifs at ha <;> simp_all [purchaseVocab] <;> tauto

theorem mem_positionPair (t : InsiderTrade) (a : String)
    (ha : a ∈ (positionPair t).1) : a ∈ purchaseVocab := by
  unfold positionPair at ha
  dsimp only at ha
  split_ifs at ha <;> simp_all [purchaseVocab] <;> tauto

theorem mem_firstEverPair (t : InsiderTrade) (a : String)
    (ha : a ∈ (firstEverPair t).1) : a ∈ purchaseVocab := by
  unfold firstEverPair at ha
  dsimp only at ha
  split_ifs at ha <;> simp_all [purchaseVocab] <;> tauto

theorem mem_purchaseBlock (t : InsiderTrade) (a : String)
    (ha : a ∈ (purchaseBlock t).1) : a ∈ purchaseVocab := by
  unfold purchaseBlock at ha
  split_ifs at ha
  · dsimp only at ha
    simp only [List.mem_append] at ha
    rcases ha with (((ha | ha) | ha) | ha) | ha
    · exact mem_buyRolePair _ _ ha
    · exact mem_chairmanPair _ _ ha
    · exact mem_tenPctBuyPair _ _ ha
    · exact mem_positionPair _ _ ha
    · exact mem_firstEverPair _ _ ha
  · simp_all

theorem mem_sellRolePair (t : InsiderTrade) (a : String)
    (ha : a ∈ (sellRolePair t).1) : a ∈ saleVocab := by
  unfold sellRolePair at ha
  dsimp only at ha
  split_ifs at ha <;> simp_all [saleVocab] <;> tauto

theorem mem_tenPctSellPair (t : InsiderTrade) (a : String)
    (ha : a ∈ (tenPctSellPair t).1) : a ∈ saleVocab := by
  unfold tenPctSellPair at ha
  split_ifs at ha <;> simp_all [saleVocab] <;> tauto

theorem mem_exitPair (t : InsiderTrade) (a : String)
    (ha : a ∈ (exitPair t).1) : a ∈ saleVocab := by
  unfold exitPair at ha
  dsimp only at ha
  split_ifs at ha <;> simp_all [saleVocab] <;> tauto

theorem mem_saleBlock (t : InsiderTrade) (a : String)
    (ha : a ∈ (saleBlock t).1) : a ∈ saleVocab := by
  unfold saleBlock at ha
  split_ifs at ha
  · dsimp only at ha
    simp only [List.mem_append] at ha
    rcases ha with (ha | ha) | ha
    · exact mem_sellRolePair _ _ ha
    · exact mem_tenPctSellPair _ _ ha
    · exact mem_exitPair _ _ ha
  · simp_all

set_option maxHeartbeats 1000000 in
theorem mem_clusterBlock (t : InsiderTrade) (rec : Option (List RecentTrade)) (a : String)
    (ha : a ∈ (clusterBlock t rec).1) : a ∈ clusterVocab := by
  unfold clusterBlock at ha
  cases rec with
  | none => split_ifs at ha <;> simp_all
  | some ts =>
    dsimp only at ha
    split_ifs at ha <;> simp_all [clusterVocab] <;> tauto

theorem mem_firstBuyPair (t : InsiderTrade) (purchases : List HistTrade) (now : Int)
    (a : String) (ha : a ∈ (firstBuyPair t purchases now).1) : a ∈ histVocab := by
  unfold firstBuyPair at ha
  cases purchases with
  | nil => split_ifs at ha <;> simp_all [histVocab] <;> tauto
  | cons p0 rest =>
    cases rest with
    | nil => split_ifs at ha <;> simp_all [histVocab] <;> tauto
    | cons p1 rest2 =>
      dsimp only at ha
      cases hfd : p1.filing_date with
      | none =>
        rw [hfd] at ha
        split_ifs at ha <;> simp_all
      | some d =>
        rw [hfd] at ha
        dsimp only at ha
        split_ifs at ha <;> simp_all [histVocab] <;> tauto

theorem mem_consecutivePair (t : InsiderTrade) (purchases : List HistTrade)
    (a : String) (ha : a ∈ (consecutivePair t purchases).1) : a ∈ histVocab := by
  unfold consecutivePair at ha
  split_ifs at ha
  · rcases hd : (purchases.take 3).filterMap (fun p => p.filing_date) with
      _ | ⟨d0, _ | ⟨d1, _ | ⟨d2, r⟩⟩⟩ <;>
      rw [hd] at ha <;> dsimp only at ha
    · simp_all
    · simp_all
    · simp_all
    · split_ifs at ha <;> simp_all [histVocab] <;> tauto
  · simp_all

theorem mem_turnedPair (t : InsiderTrade) (purchases sales : List HistTrade)
    (a : String) (ha : a ∈ (turnedPair t purchases sales).1) : a ∈ histVocab := by
  unfold turnedPair at ha
  split_ifs at ha <;> simp_all [histVocab] <;> tauto

theorem mem_histBlock (t : InsiderTrade) (hAT : Option (List HistTrade)) (now : Int)
    (a : String) (ha : a ∈ (histBlock t hAT now).1) : a ∈ histVocab := by
  unfold histBlock at ha
  cases hAT with
  | none => split_ifs at ha <;> simp_all
  | some history =>
    dsimp only at ha
    split_ifs at ha
    · simp only [List.mem_append] at ha
      rcases ha with (ha | ha) | ha
      · exact mem_firstBuyPair _ _ _ _ ha
      · exact mem_consecutivePair _ _ _ ha
      · exact mem_turnedPair _ _ _ _ ha
    · simp_all

set_option maxHeartbeats 1000000 in
theorem mem_sizeBlock (t : InsiderTrade) (a : String)
    (ha : a ∈ (sizeBlock t).1) : a ∈ sizeVocab := by
  unfold sizeBlock at ha
  dsimp only at ha
  split_ifs at ha <;> simp_all [sizeVocab] <;> tauto

theorem mem_relSizePair (t : InsiderTrade) (past_values : List ℚ)
    (a : String) (ha : a ∈ (relSizePair t past_values).1) : a ∈ relVocab := by
  unfold relSizePair at ha
  dsimp only at ha
  split_ifs at ha <;> simp_all [relVocab] <;> tauto

theorem mem_relBlock (t : InsiderTrade) (hA : Option (List HistTrade)) (a : String)
    (ha : a ∈ (relBlock t hA).1) : a ∈ relVocab := by
  unfold relBlock at ha
  cases hA with
  | none => split_ifs at ha <;> simp_all
  | some history =>
    dsimp only at ha
    split_ifs at ha
    · exact mem_relSizePair _ _ _ ha
    · exact mem_relSizePair _ _ _ ha
    · simp_all

theorem mem_directorTag (t : InsiderTrade) (acc : List String) (a : String)
    (ha : a ∈ directorTag t acc) : a = "director_buy" := by
  unfold directorTag at ha
  split_ifs at ha <;> simp_all

/-! ## Exact tags of the mini-rules -/

theorem chairmanPair_tags (t : InsiderTrade) (a : String)
    (ha : a ∈ (chairmanPair t).1) : a = "chairman_buy" := by
  unfold chairmanPair at ha
  split_ifs at ha <;> simp_all

theorem tenPctBuyPair_tags (t : InsiderTrade) (a : String)
    (ha : a ∈ (tenPctBuyPair t).1) : a = "major_shareholder_buy" := by
  unfold tenPctBuyPair at ha
  split_ifs at ha <;> simp_all

theorem positionPair_tags (t : InsiderTrade) (a : String)
    (ha : a ∈ (positionPair t).1) :
    a = "position_doubled" ∨ a = "major_position_increase" ∨
    a = "significant_position_increase" := by
  unfold positionPair at ha
  dsimp only at ha
  split_ifs at ha <;> simp_all

theorem firstEverPair_tags (t : InsiderTrade) (a : String)
    (ha : a ∈ (firstEverPair t).1) : a = "first_ever_purchase" := by
  unfold firstEverPair at ha
  dsimp only at ha
  split_ifs at ha <;> simp_all

theorem tenPctSellPair_tags (t : InsiderTrade) (a : String)
    (ha : a ∈ (tenPctSellPair t).1) : a = "major_shareholder_sale" := by
  unfold tenPctSellPair at ha
  split_ifs at ha <;> simp_all

theorem exitPair_tags (t : InsiderTrade) (a : String)
    (ha : a ∈ (exitPair t).1) :
    a = "complete_exit" ∨ a = "major_reduction" ∨ a = "significant_reduction" := by
  unfold exitPair at ha
  dsimp only at ha
  split_ifs at ha <;> simp_all

/-- When the CFO purchase tag fires, the CEO/Founder keywords did not
match: the source checks them in an if/elif chain. -/
theorem cfo_buy_not_ceo (t : InsiderTrade)
    (h : "cfo_buy" ∈ (buyRolePair t).1) : ceoMatch t = false := by
  unfold buyRolePair at h
  dsimp only at h
  split_ifs at h <;> unfold ceoMatch <;> simp_all

/-- Same exclusivity on the sale side. -/
theorem cfo_sale_not_ceo (t : InsiderTrade)
    (h : "cfo_sale" ∈ (sellRolePair t).1) : ceoMatch t = false := by
  unfold sellRolePair at h
  dsimp only at h
  split_ifs at h <;> unfold ceoMatch <;> simp_all

theorem cfo_buy_purchaseBlock (t : InsiderTrade)
    (h : "cfo_buy" ∈ (purchaseBlock t).1) : ceoMatch t = false := by
  unfold purchaseBlock at h
  split_ifs at h
  · dsimp only at h
    simp only [List.mem_append] at h
    rcases h with (((h | h) | h) | h) | h
    · exact cfo_buy_not_ceo t h
    · exact absurd (chairmanPair_tags t _ h) (by decide)
    · exact absurd (tenPctBuyPair_tags t _ h) (by decide)
    · exact absurd (positionPair_tags t _ h) (by decide)
    · exact absurd (firstEverPair_tags t _ h) (by decide)
  · simp_all

theorem cfo_sale_saleBlock (t : InsiderTrade)
    (h : "cfo_sale" ∈ (saleBlock t).1) : ceoMatch t = false := by
  unfold saleBlock at h
  split_ifs at h
  · dsimp only at h
    simp only [List.mem_append] at h
    rcases h with (h | h) | h
    · exact cfo_sale_not_ceo t h
    · exact absurd (tenPctSellPair_tags t _ h) (by decide)
    · exact absurd (exitPair_tags t _ h) (by decide)
  · simp_all

/-- C6 counterexample: an insider whose role text matches both the
higher-priority CEO/Founder category and the lower-priority Chairman
category receives BOTH role tags on a purchase — the Chairman check is
an independent `if`, not part of the priority chain. -/
theorem claim6_counterexample :
    ceoMatch ceoChairmanTrade = true ∧
    (analyze ceoChairmanTrade none none none 0).anomalies =
      some ["ceo_founder_buy", "chairman_buy"] :=
  ⟨by decide, by decide⟩

/-- C6 (amended): the CEO/Founder and CFO categories are checked in an
if/elif chain, so a record whose role text matches CEO/Founder never
receives the CFO tag (`cfo_buy` on purchases, `cfo_sale` on sales); the
Chairman and 10%-owner checks are independent and may co-occur with a
higher-priority role tag. -/
theorem claim6_theorem (t : InsiderTrade) (rec : Option (List RecentTrade))
    (hAT hA : Option (List HistTrade)) (now : Int) (h : ceoMatch t = true) :
    "cfo_buy" ∉ ((analyze t rec hAT hA now).anomalies.getD []) ∧
    "cfo_sale" ∉ ((analyze t rec hAT hA now).anomalies.getD []) := by
  constructor <;> intro hmem <;>
    dsimp only [analyze, Option.getD] at hmem <;>
    simp only [List.mem_append] at hmem
  · rcases hmem with (((((h1 | h2) | h3) | h4) | h5) | h6) | h7
    · have := cfo_buy_purchaseBlock t h1
      simp [this] at h
    · exact absurd (mem_saleBlock t _ h2) (by decide)
    · exact absurd (mem_clusterBlock t rec _ h3) (by decide)
    · exact absurd (mem_histBlock t hAT now _ h4) (by decide)
    · exact absurd (mem_sizeBlock t _ h5) (by decide)
    · exact absurd (mem_relBlock t hA _ h6) (by decide)
    · exact absurd (mem_directorTag t _ _ h7) (by decide)
  · rcases hmem with (((((h1 | h2) | h3) | h4) | h5) | h6) | h7
    · exact absurd (mem_purchaseBlock t _ h1) (by decide)
    · have := cfo_sale_saleBlock t h2
      simp [this] at h
    · exact absurd (mem_clusterBlock t rec _ h3) (by decide)
    · exact absurd (mem_histBlock t hAT now _ h4) (by decide)
    · exact absurd (mem_sizeBlock t _ h5) (by decide)
    · exact absurd (mem_relBlock t hA _ h6) (by decide)
    · exact absurd (mem_directorTag t _ _ h7) (by decide)

/-- C6 witness: the amended theorem applied to a plain CEO purchase. -/
theorem claim6_witness :
    ceoMatch ceoTrade = true ∧
    "cfo_buy" ∉ ((analyze ceoTrade none none none 0).anomalies.getD []) ∧
    "cfo_sale" ∉ ((analyze ceoTrade none none none 0).anomalies.getD []) :=
  ⟨by decide, (claim6_theorem ceoTrade none none none 0 (by decide)).1,
   (claim6_theorem ceoTrade none none none 0 (by decide)).2⟩

/-! ## Cluster-block behavior -/

theorem isSale_false_of_isPurchase (t : InsiderTrade) (h : t.isPurchase = true) :
    t.isSale = false := by
  unfold InsiderTrade.isPurchase at h
  unfold InsiderTrade.isSale
  have ht : t.ttype = "P" := by simpa using h
  simp [ht]

theorem isPurchase_false_of_isSale (t : InsiderTrade) (h : t.isSale = true) :
    t.isPurchase = false := by
  unfold InsiderTrade.isSale at h
  unfold InsiderTrade.isPurchase
  have ht : t.ttype = "S" := by simpa using h
  simp [ht]

theorem clusterBlock_buy3 (t : InsiderTrade) (R : List RecentTrade)
    (htk : strTruthy t.ticker = true) (hp : t.isPurchase = true)
    (h3 : uniqueBuyers R ≥ 3) :
    clusterBlock t (some R) =
      (["cluster_buy"], [toString (uniqueBuyers R) ++ " insiders buying in last 2 weeks"]) := by
  have hs := isSale_false_of_isPurchase t hp
  unfold clusterBlock
  simp [htk, hp, hs, decide_eq_true h3]

theorem clusterBlock_buy2 (t : InsiderTrade) (R : List RecentTrade)
    (htk : strTruthy t.ticker = true) (hp : t.isPurchase = true)
    (h2 : uniqueBuyers R = 2) :
    clusterBlock t (some R) = (["multiple_buyers"], []) := by
  have hs := isSale_false_of_isPurchase t hp
  unfold clusterBlock
  simp [htk, hp, hs, h2]

theorem clusterBlock_sell3 (t : InsiderTrade) (R : List RecentTrade)
    (htk : strTruthy t.ticker = true) (hp : t.isSale = true)
    (h3 : uniqueSellers R ≥ 3) :
    clusterBlock t (some R) =
      (["cluster_sell"], [toString (uniqueSellers R) ++ " insiders selling - potential red flag"]) := by
  have hb := isPurchase_false_of_isSale t hp
  unfold clusterBlock
  simp [htk, hp, hb, decide_eq_true h3]

theorem clusterBlock_sell2 (t : InsiderTrade) (R : List RecentTrade)
    (htk : strTruthy t.ticker = true) (hp : t.isSale = true)
    (h2 : uniqueSellers R = 2) :
    clusterBlock t (some R) = ([], []) := by
  have hb := isPurchase_false_of_isSale t hp
  unfold clusterBlock
  simp [htk, hp, hb, h2]

/-- Any tag the cluster block emits appears in the analyzed record. -/
theorem mem_analyze_of_cluster (t : InsiderTrade) (rec : Option (List RecentTrade))
    (hAT hA : Option (List HistTrade)) (now : Int) (a : String)
    (h : a ∈ (clusterBlock t rec).1) :
    a ∈ (analyze t rec hAT hA now).anomalies.getD [] := by
  dsimp only [analyze, Option.getD]
  simp only [List.mem_append]
  tauto

/-- Any text the cluster block emits appears in the analyzed record. -/
theorem mem_analyze_texts_of_cluster (t : InsiderTrade) (rec : Option (List RecentTrade))
    (hAT hA : Option (List HistTrade)) (now : Int) (s : String)
    (h : s ∈ (clusterBlock t rec).2) :
    s ∈ (analyze t rec hAT hA now).anomaly_texts.getD [] := by
  dsimp only [analyze, Option.getD]
  simp only [List.mem_append]
  tauto

/-- A tag foreign to every non-cluster vocabulary can only have come
from the cluster block. -/
theorem cluster_tag_only (t : InsiderTrade) (rec : Option (List RecentTrade))
    (hAT hA : Option (List HistTrade)) (now : Int) (a : String)
    (ha : a ∈ (analyze t rec hAT hA now).anomalies.getD [])
    (hp : a ∉ purchaseVocab) (hs : a ∉ saleVocab) (hh : a ∉ histVocab)
    (hz : a ∉ sizeVocab) (hr : a ∉ relVocab) (hd : a ≠ "director_buy") :
    a ∈ (clusterBlock t rec).1 := by
  dsimp only [analyze, Option.getD] at ha
  simp only [List.mem_append] at ha
  rcases ha with (((((h1 | h2) | h3) | h4) | h5) | h6) | h7
  · exact absurd (mem_purchaseBlock t _ h1) hp
  · exact absurd (mem_saleBlock t _ h2) hs
  · exact h3
  · exact absurd (mem_histBlock t hAT now _ h4) hh
  · exact absurd (mem_sizeBlock t _ h5) hz
  · exact absurd (mem_relBlock t hA _ h6) hr
  · exact absurd (mem_directorTag t _ _ h7) hd

/-- C7 counterexample: a sale on a ticker whose 14-day window shows
exactly two distinct same-direction (selling) actors receives NO tag at
all — the "exactly 2 ⇒ weaker tag" rule exists only for purchases. -/
theorem claim7_counterexample :
    twoSellerTrade.transaction_type = some "S" ∧
    uniqueSellers twoSellerRecent = 2 ∧
    (analyze twoSellerTrade (some twoSellerRecent) none none 0).anomalies = some [] ∧
    (analyze twoSellerTrade (some twoSellerRecent) none none 0).anomaly_texts = some [] :=
  ⟨rfl, by decide, by decide, by decide⟩

/-- C7 (amended): for a record with a truthy ticker, at least 3 distinct
same-direction actors in the window yield `cluster_buy`/`cluster_sell`
with a text stating the live count; exactly 2 distinct buyers on a
purchase yield the weaker `multiple_buyers` tag with no text; a sale
with exactly 2 distinct sellers receives no cluster tag at all. -/
theorem claim7_theorem (t : InsiderTrade) (R : List RecentTrade)
    (hAT hA : Option (List HistTrade)) (now : Int)
    (htk : strTruthy t.ticker = true) :
    (t.isPurchase = true → uniqueBuyers R ≥ 3 →
      "cluster_buy" ∈ (analyze t (some R) hAT hA now).anomalies.getD [] ∧
      (toString (uniqueBuyers R) ++ " insiders buying in last 2 weeks") ∈
        (analyze t (some R) hAT hA now).anomaly_texts.getD []) ∧
    (t.isPurchase = true → uniqueBuyers R = 2 →
      "multiple_buyers" ∈ (analyze t (some R) hAT hA now).anomalies.getD [] ∧
      "cluster_buy" ∉ (analyze t (some R) hAT hA now).anomalies.getD []) ∧
    (t.isSale = true → uniqueSellers R ≥ 3 →
      "cluster_sell" ∈ (analyze t (some R) hAT hA now).anomalies.getD [] ∧
      (toString (uniqueSellers R) ++ " insiders selling - potential red flag") ∈
        (analyze t (some R) hAT hA now).anomaly_texts.getD []) ∧
    (t.isSale = true → uniqueSellers R = 2 →
      "cluster_buy" ∉ (analyze t (some R) hAT hA now).anomalies.getD [] ∧
      "multiple_buyers" ∉ (analyze t (some R) hAT hA now).anomalies.getD [] ∧
      "cluster_sell" ∉ (analyze t (some R) hAT hA now).anomalies.getD []) := by
  refine ⟨fun hp h3 => ?_, fun hp h2 => ?_, fun hs h3 => ?_, fun hs h2 => ?_⟩
  · have hcb := clusterBlock_buy3 t R htk hp h3
    constructor
    · exact mem_analyze_of_cluster t _ hAT hA now _ (by rw [hcb]; simp)
    · exact mem_analyze_texts_of_cluster t _ hAT hA now _ (by rw [hcb]; simp)
  · have hcb := clusterBlock_buy2 t R htk hp h2
    constructor
    · exact mem_analyze_of_cluster t _ hAT hA now _ (by rw [hcb]; simp)
    · intro hmem
      have := cluster_tag_only t _ hAT hA now _ hmem (by decide) (by decide)
        (by decide) (by decide) (by decide) (by decide)
      rw [hcb] at this
      simp at this
  · have hcb := clusterBlock_sell3 t R htk hs h3
    constructor
    · exact mem_analyze_of_cluster t _ hAT hA now _ (by rw [hcb]; simp)
    · exact mem_analyze_texts_of_cluster t _ hAT hA now _ (by rw [hcb]; simp)
  · have hcb := clusterBlock_sell2 t R htk hs h2
    refine ⟨fun hmem => ?_, fun hmem => ?_, fun hmem => ?_⟩ <;>
      · have := cluster_tag_only t _ hAT hA now _ hmem (by decide) (by decide)
          (by decide) (by decide) (by decide) (by decide)
        rw [hcb] at this
        simp at this

/-- C7 witness: a purchase whose window shows three distinct buyers
earns `cluster_buy` and the live-count text. -/
theorem claim7_witness :
    strTruthy threeBuyerTrade.ticker = true ∧
    threeBuyerTrade.isPurchase = true ∧
    uniqueBuyers threeBuyerRecent ≥ 3 ∧
    ("cluster_buy" ∈
      (analyze threeBuyerTrade (some threeBuyerRecent) none none 0).anomalies.getD [] ∧
     (toString (uniqueBuyers threeBuyerRecent) ++ " insiders buying in last 2 weeks") ∈
      (analyze threeBuyerTrade (some threeBuyerRecent) none none 0).anomaly_texts.getD []) :=
  ⟨by decide, by decide, by decide,
   (claim7_theorem threeBuyerTrade threeBuyerRecent none none 0 (by decide)).1
     (by decide) (by decide)⟩

/-! ## Lookup-failure behavior -/

theorem contains_eq_decide (l : List String) (a : String) :
    l.contains a = decide (a ∈ l) := by
  induction l with
  | nil => rfl
  | cons b l ih => simp [List.contains_cons, ih]

theorem histBlock_none (t : InsiderTrade) (now : Int) :
    histBlock t none now = ([], []) := by
  unfold histBlock
  split_ifs <;> rfl

theorem relBlock_none (t : InsiderTrade) : relBlock t none = ([], []) := by
  unfold relBlock
  split_ifs <;> rfl

/-- A raised recent-activity lookup behaves exactly like one that
returned no rows. -/
theorem clusterBlock_none_eq_empty (t : InsiderTrade) :
    clusterBlock t none = clusterBlock t (some []) := by
  unfold clusterBlock
  split_ifs <;> simp [uniqueBuyers, uniqueSellers]

theorem filter_keep_disjoint (W l V : List String)
    (hsub : ∀ a ∈ l, a ∈ V) (hdisj : ∀ a ∈ V, a ∉ W) :
    l.filter (fun a => !W.contains a) = l :=
  List.filter_eq_self.mpr (fun a ha => by
    have hw : a ∉ W := hdisj a (hsub a ha)
    rw [contains_eq_decide]
    simp [hw])

theorem filter_drop_subset (W l : List String) (hsub : ∀ a ∈ l, a ∈ W) :
    l.filter (fun a => !W.contains a) = [] :=
  List.filter_eq_nil_iff.mpr (fun a ha => by
    have hw : a ∈ W := hsub a ha
    rw [contains_eq_decide]
    simp [hw])

theorem directorTag_congr (t : InsiderTrade) (acc acc' : List String)
    (h1 : "ceo_founder_buy" ∈ acc ↔ "ceo_founder_buy" ∈ acc')
    (h2 : "cfo_buy" ∈ acc ↔ "cfo_buy" ∈ acc') :
    directorTag t acc = directorTag t acc' := by
  unfold directorTag
  rw [contains_eq_decide acc, contains_eq_decide acc',
    contains_eq_decide acc, contains_eq_decide acc',
    decide_eq_decide.mpr h1, decide_eq_decide.mpr h2]

theorem mem_append_drop_iff (a : String) (P S C HB Z RB : List String)
    (hhb : a ∉ HB) :
    (a ∈ P ++ S ++ C ++ HB ++ Z ++ RB) ↔
      (a ∈ P ++ S ++ C ++ ([] : List String) ++ Z ++ RB) := by
  simp only [List.mem_append, List.not_mem_nil, or_false]
  tauto

/-- Failed actor-and-ticker history lookup: the record loses exactly the
history-vocabulary tags, in place; every other check still contributes. -/
theorem analyze_hist_none (t : InsiderTrade) (rec : Option (List RecentTrade))
    (hA : Option (List HistTrade)) (H : List HistTrade) (now : Int) :
    (analyze t rec none hA now).anomalies.getD [] =
      ((analyze t rec (some H) hA now).anomalies.getD []).filter
        (fun a => !histVocab.contains a) := by
  have d1 : ∀ a ∈ purchaseVocab, a ∉ histVocab := by decide
  have d2 : ∀ a ∈ saleVocab, a ∉ histVocab := by decide
  have d3 : ∀ a ∈ clusterVocab, a ∉ histVocab := by decide
  have d5 : ∀ a ∈ sizeVocab, a ∉ histVocab := by decide
  have d6 : ∀ a ∈ relVocab, a ∉ histVocab := by decide
  have d7 : ∀ a ∈ (["director_buy"] : List String), a ∉ histVocab := by decide
  dsimp only [analyze, Option.getD]
  rw [histBlock_none]
  dsimp only
  have hdir : directorTag t
      ((purchaseBlock t).1 ++ (saleBlock t).1 ++ (clusterBlock t rec).1 ++
        (histBlock t (some H) now).1 ++ (sizeBlock t).1 ++ (relBlock t hA).1) =
      directorTag t
      ((purchaseBlock t).1 ++ (saleBlock t).1 ++ (clusterBlock t rec).1 ++
        [] ++ (sizeBlock t).1 ++ (relBlock t hA).1) := by
    refine directorTag_congr t _ _ ?_ ?_ <;>
      refine mem_append_drop_iff _ _ _ _ _ _ _ (fun hm => ?_)
    · exact absurd (mem_histBlock t (some H) now _ hm) (by decide)
    · exact absurd (mem_histBlock t (some H) now _ hm) (by decide)
  rw [← hdir]
  simp only [List.filter_append]
  rw [filter_keep_disjoint histVocab _ purchaseVocab (mem_purchaseBlock t) d1,
    filter_keep_disjoint histVocab _ saleVocab (mem_saleBlock t) d2,
    filter_keep_disjoint histVocab _ clusterVocab (mem_clusterBlock t rec) d3,
    filter_drop_subset histVocab _ (mem_histBlock t (some H) now),
    filter_keep_disjoint histVocab _ sizeVocab (mem_sizeBlock t) d5,
    filter_keep_disjoint histVocab _ relVocab (mem_relBlock t hA) d6,
    filter_keep_disjoint histVocab _ ["director_buy"]
      (fun a ha => by simp [mem_directorTag t _ a ha]) d7]

theorem mem_append_drop_last_iff (a : String) (P S C HB Z RB : List String)
    (hrb : a ∉ RB) :
    (a ∈ P ++ S ++ C ++ HB ++ Z ++ RB) ↔
      (a ∈ P ++ S ++ C ++ HB ++ Z ++ ([] : List String)) := by
  simp only [List.mem_append, List.not_mem_nil, or_false]
  tauto

/-- Failed relative-size lookup: the record loses exactly the
relative-size tags; every other check still contributes. -/
theorem analyze_rel_none (t : InsiderTrade) (rec : Option (List RecentTrade))
    (hAT : Option (List HistTrade)) (H : List HistTrade) (now : Int) :
    (analyze t rec hAT none now).anomalies.getD [] =
      ((analyze t rec hAT (some H) now).anomalies.getD []).filter
        (fun a => !relVocab.contains a) := by
  have d1 : ∀ a ∈ purchaseVocab, a ∉ relVocab := by decide
  have d2 : ∀ a ∈ saleVocab, a ∉ relVocab := by decide
  have d3 : ∀ a ∈ clusterVocab, a ∉ relVocab := by decide
  have d4 : ∀ a ∈ histVocab, a ∉ relVocab := by decide
  have d7 : ∀ a ∈ (["director_buy"] : List String), a ∉ relVocab := by decide
  dsimp only [analyze, Option.getD]
  rw [relBlock_none]
  dsimp only
  have hdir : directorTag t
      ((purchaseBlock t).1 ++ (saleBlock t).1 ++ (clusterBlock t rec).1 ++
        (histBlock t hAT now).1 ++ (sizeBlock t).1 ++ (relBlock t (some H)).1) =
      directorTag t
      ((purchaseBlock t).1 ++ (saleBlock t).1 ++ (clusterBlock t rec).1 ++
        (histBlock t hAT now).1 ++ (sizeBlock t).1 ++ []) := by
    refine directorTag_congr t _ _ ?_ ?_ <;>
      refine mem_append_drop_last_iff _ _ _ _ _ _ _ (fun hm => ?_)
    · exact absurd (mem_relBlock t (some H) _ hm) (by decide)
    · exact absurd (mem_relBlock t (some H) _ hm) (by decide)
  rw [← hdir]
  simp only [List.filter_append]
  rw [filter_keep_disjoint relVocab _ purchaseVocab (mem_purchaseBlock t) d1,
    filter_keep_disjoint relVocab _ saleVocab (mem_saleBlock t) d2,
    filter_keep_disjoint relVocab _ clusterVocab (mem_clusterBlock t rec) d3,
    filter_keep_disjoint relVocab _ histVocab (mem_histBlock t hAT now) d4,
    filter_keep_disjoint relVocab _ sizeVocab (mem_sizeBlock t) (by decide),
    filter_drop_subset relVocab _ (mem_relBlock t (some H)),
    filter_keep_disjoint relVocab _ ["director_buy"]
      (fun a ha => by simp [mem_directorTag t _ a ha]) d7]

/-- C5: absent optional fields are "no signal", never errors — the
all-absent record analyzes to empty anomalies and the scorer treats a
missing anomalies key as an empty list — and a failed lookup only skips
its own checks: a failed recent-activity lookup behaves exactly like an
empty one, and a failed history (resp. relative-size) lookup removes
exactly the history-vocabulary (resp. relative-size) tags while every
other check still contributes, in order. -/
theorem claim5_theorem (t : InsiderTrade) (rec : Option (List RecentTrade))
    (hAT hA : Option (List HistTrade)) (H : List HistTrade) (now : Int) :
    analyze t none hAT hA now = analyze t (some []) hAT hA now ∧
    (analyze t rec none hA now).anomalies.getD [] =
      ((analyze t rec (some H) hA now).anomalies.getD []).filter
        (fun a => !histVocab.contains a) ∧
    (analyze t rec hAT none now).anomalies.getD [] =
      ((analyze t rec hAT (some H) now).anomalies.getD []).filter
        (fun a => !relVocab.contains a) ∧
    analyze emptyTrade none none none now =
      { emptyTrade with
          anomalies := some []
          anomaly_texts := some []
          is_bullish := some false
          is_bearish := some false } ∧
    calculate_virality_score { t with anomalies := none } =
      calculate_virality_score { t with anomalies := some [] } := by
  refine ⟨?_, analyze_hist_none t rec hA H now, analyze_rel_none t rec hAT H now, ?_, ?_⟩
  · simp only [analyze, clusterBlock_none_eq_empty]
  · rfl
  · rfl
